import Mathlib

/-!
Verification development for the group initiative-dialogue plugin.

The definitions below are a shallow embedding of the Python sources:
main.py, core/group_initiative_dialogue_core.py, utils/group_message_manager.py
and utils/data_loader.py. Python dicts are modelled as association lists over
String keys, Python sets as String lists with set-like operations, datetimes
in the core as Int timestamps (seconds), and datetimes in the persistence
layer as a broken-down DateTime structure whose ISO serialization is modelled
character by character. External collaborators (LLM generation, the chat
platform, the task manager whose source file is not part of this snapshot)
appear as explicit parameters or as definitions modelled from the spec, each
marked as such in its doc comment.
-/

/-! ## Python dict and set primitives -/

def dictGet? {α : Type} : List (String × α) → String → Option α
  | [], _ => none
  | (k, v) :: rest, key => if k = key then some v else dictGet? rest key

def dictErase {α : Type} (m : List (String × α)) (key : String) : List (String × α) :=
  m.filter (fun p => !(p.1 == key))

def dictSet {α : Type} (m : List (String × α)) (key : String) (v : α) : List (String × α) :=
  (key, v) :: dictErase m key

def setAdd (s : List String) (g : String) : List String :=
  if s.contains g then s else g :: s

def setDiscard (s : List String) (g : String) : List String :=
  s.filter (fun x => !(x == g))

/-! ## Data model (core/group_initiative_dialogue_core.py lines 77-89) -/

/-- One entry of group_records or last_initiative_messages: a dict with keys
timestamp, conversation_id and unified_msg_origin. -/
structure GroupRecord where
  timestamp : Int
  conversation_id : String
  unified_msg_origin : String
deriving DecidableEq

/-- One entry of last_initiative_types: the message_type_info dict built in
the dispatcher (lines 347-351), with keys count, time_period and timestamp. -/
structure InitiativeTypeInfo where
  count : Nat
  time_period : String
  timestamp : Int
deriving DecidableEq

/-- The mutable in-memory state of GroupInitiativeDialogueCore. -/
structure CoreState where
  group_records : List (String × GroupRecord)
  last_initiative_messages : List (String × GroupRecord)
  groups_received_initiative : List String
  consecutive_message_count : List (String × Nat)
  last_initiative_types : List (String × InitiativeTypeInfo)
deriving DecidableEq

/-- State right after construction (lines 77-89): all stores empty. -/
def initialState : CoreState :=
  { group_records := []
    last_initiative_messages := []
    groups_received_initiative := []
    consecutive_message_count := []
    last_initiative_types := [] }

/-- Configuration snapshot read in the constructor (lines 38-54). -/
structure Config where
  inactive_time_seconds : Nat
  max_response_delay_seconds : Nat
  time_limit_enabled : Bool
  activity_start_hour : Nat
  activity_end_hour : Nat
  max_consecutive_messages : Nat
  whitelist_enabled : Bool
  whitelist_groups : List String

/-! ## The dispatch marker test (main.py line 78) -/

def listStartsWith : List Char → List Char → Bool
  | [], _ => true
  | _ :: _, [] => false
  | p :: ps, c :: cs => p == c && listStartsWith ps cs

def listContainsSub (pat : List Char) : List Char → Bool
  | [] => pat.isEmpty
  | c :: cs => listStartsWith pat (c :: cs) || listContainsSub pat cs

def sysPromptMarker : List Char := "[SYS_PROMPT]".data

/-- Python substring test: the marker string occurs in message_str. -/
def containsSysPrompt (s : String) : Bool :=
  listContainsSub sysPromptMarker s.data

/-! ## Escalation dispatcher (_send_initiative_message, lines 242-394) -/

/-- Time-of-day bucketing (lines 278-292). -/
def timePeriodOfHour (hour : Nat) : String :=
  if 6 ≤ hour ∧ hour < 8 then "早上"
  else if 8 ≤ hour ∧ hour < 11 then "上午"
  else if 11 ≤ hour ∧ hour < 13 then "午饭"
  else if 13 ≤ hour ∧ hour < 17 then "下午"
  else if 17 ≤ hour ∧ hour < 19 then "晚饭"
  else if 19 ≤ hour ∧ hour < 23 then "晚上"
  else "深夜"

/-- The count the dispatcher reads before incrementing (lines 258-266):
last_initiative_types has priority, consecutive_message_count with default 0
is the fallback. -/
def dispatch_current_count (st : CoreState) (g : String) : Nat :=
  match dictGet? st.last_initiative_types g with
  | some info => info.count
  | none => (dictGet? st.consecutive_message_count g).getD 0

/-- Escalation prompt index selection (lines 294-311); affects only the text
sent, never the committed state. The sample argument stands for the random
draw within the selected bucket. -/
def promptIndexFor (cfg : Config) (next_count : Nat) (sample : Nat) : Nat :=
  let raw :=
    if next_count = 1 then sample % 4
    else if next_count = 2 then 4 + sample % 2
    else if next_count = cfg.max_consecutive_messages then 8 + sample % 2
    else 6 + sample % 2
  min raw 9

/-- Model of GroupMessageManager.generate_and_send_message
(utils/group_message_manager.py lines 33-129) as seen by the dispatcher:
any exception inside it is caught there and surfaced as a False return
(lines 125-129), and a missing conversation also returns False (lines 61-65);
otherwise the call returns the truthy request value. Its only state write
(line 113-115) is guarded by message_type being the exact string 主动消息,
which the dispatcher never passes (it passes 群聊主动消息), so the call is
state-pure on the dispatcher path. -/
def generate_and_send_message (convFound : Bool) (internalError : Bool) : Bool :=
  if internalError then false
  else if !convFound then false
  else true

/-- Shallow embedding of _send_initiative_message. The two datetime.now()
calls inside the commit (lines 350 and 359) are modelled as the single
send-completion instant now. sendOutcome is the outcome of awaiting
generate_and_send_message: none models an exception propagating into the
except branch (lines 391-394, state untouched), some b models a normal
return with value b; the source binds the value to result and never reads
it, so the commit (lines 343-389) runs for any some b. The returned Bool
reports whether the send step was reached. -/
def send_initiative_message (cfg : Config) (st : CoreState)
    (group_id conversation_id unified_msg_origin : String)
    (hour : Nat) (now : Int) (sendOutcome : Option Bool) : CoreState × Bool :=
  if cfg.whitelist_enabled ∧ ¬ cfg.whitelist_groups.contains group_id then (st, false)
  else
    let next_count := dispatch_current_count st group_id + 1
    if cfg.max_consecutive_messages < next_count then (st, false)
    else
      match sendOutcome with
      | none => (st, true)
      | some _ =>
        ({ st with
            consecutive_message_count :=
              dictSet st.consecutive_message_count group_id next_count
            last_initiative_types :=
              dictSet st.last_initiative_types group_id
                { count := next_count, time_period := timePeriodOfHour hour
                  timestamp := now }
            last_initiative_messages :=
              dictSet st.last_initiative_messages group_id
                { timestamp := now, conversation_id := conversation_id
                  unified_msg_origin := unified_msg_origin }
            groups_received_initiative :=
              setAdd st.groups_received_initiative group_id
            group_records :=
              if next_count < cfg.max_consecutive_messages then
                dictSet st.group_records group_id
                  { timestamp := now, conversation_id := conversation_id
                    unified_msg_origin := unified_msg_origin }
              else st.group_records },
         true)

/-! ## Inactivity scanner (_check_inactive_conversations_loop, lines 173-240) -/

/-- A task handed to TaskManager.schedule_task (lines 222-231). -/
structure ScheduledTask where
  task_id : String
  group_id : String
  conversation_id : String
  unified_msg_origin : String
  min_delay : Nat
  max_delay : Nat
deriving DecidableEq

/-- Per-group eligibility inside one tick (lines 196-215): whitelist gate,
terminal-count gate against consecutive_message_count (default 0), and the
inactivity threshold. The timestamp key is always present on records built
by this program, so the falsy-timestamp continue (lines 207-209) is vacuous
here. -/
def scan_eligible (cfg : Config) (st : CoreState) (now : Int)
    (g : String) (r : GroupRecord) : Bool :=
  (!cfg.whitelist_enabled || cfg.whitelist_groups.contains g)
  && ((dictGet? st.consecutive_message_count g).getD 0 < cfg.max_consecutive_messages)
  && decide ((cfg.inactive_time_seconds : Int) ≤ now - r.timestamp)

/-- The task built for an eligible group: payload (group id, conversation_id,
unified_msg_origin), min_delay 0 and max_delay int(max_response_delay_seconds
divided by 60) exactly as passed at lines 222-231. -/
def mkScanTask (cfg : Config) (now : Int) (g : String) (r : GroupRecord) : ScheduledTask :=
  { task_id := "group_initiative_" ++ g ++ "_" ++ toString now
    group_id := g
    conversation_id := r.conversation_id
    unified_msg_origin := r.unified_msg_origin
    min_delay := 0
    max_delay := cfg.max_response_delay_seconds / 60 }

/-- One iteration of the while body (lines 180-234): outside the activity
window the tick is skipped whole; otherwise every snapshot entry is checked,
eligible groups are handed to the scheduler and popped from group_records.
Popping only removes the group just scheduled and eligibility never reads
group_records, so iterating the snapshot with pops is exactly a filter. -/
def check_inactive_conversations_tick (cfg : Config) (st : CoreState)
    (hour : Nat) (now : Int) : CoreState × List ScheduledTask :=
  if cfg.time_limit_enabled ∧ ¬ (cfg.activity_start_hour ≤ hour ∧ hour < cfg.activity_end_hour) then
    (st, [])
  else
    ({ st with group_records :=
        st.group_records.filter (fun p => !scan_eligible cfg st now p.1 p.2) },
     st.group_records.filterMap (fun p =>
        if scan_eligible cfg st now p.1 p.2 then some (mkScanTask cfg now p.1 p.2) else none))

/-- A sequence of scanner ticks, each with its wall-clock hour and now. -/
def runTicks (cfg : Config) : CoreState → List (Nat × Int) → CoreState × List ScheduledTask
  | st, [] => (st, [])
  | st, (h, n) :: rest =>
    let r := check_inactive_conversations_tick cfg st h n
    let rr := runTicks cfg r.1 rest
    (rr.1, r.2 ++ rr.2)

/-- Modelled from the spec: TaskManager.schedule_task (utils/task_manager.py
is not in this source snapshot). Per the spec the scheduler runs the work
after a delay sampled uniformly from the supplied range; the scanner supplies
that range in whole minutes (it divides max_response_delay_seconds by 60), so
an admissible sample k with min_delay ≤ k ≤ max_delay waits 60 * k seconds. -/
def scheduledDelaySeconds (k : Nat) : Nat := 60 * k

/-! ## The scanner loop control flow (lines 173-240) -/

/-- An event observed by the loop: a clean tick, a transient exception
escaping the body, or the cancellation signal. -/
inductive LoopEvent where
  | tick (hour : Nat) (now : Int)
  | err
  | cancelSignal
deriving DecidableEq

inductive LoopExit where
  | running
  | exitedErr
  | cancelledExit
deriving DecidableEq

def isTick : LoopEvent → Bool
  | .tick _ _ => true
  | _ => false

/-- The try block wraps the whole while loop: an exception escaping the body
reaches the except-Exception clause (lines 239-240), which logs and falls off
the end of the coroutine, so no later event is processed; CancelledError
(lines 236-238) re-raises. Exceptions are modelled as striking at an
iteration boundary. -/
def check_inactive_conversations_loop (cfg : Config) :
    CoreState → List LoopEvent → CoreState × List ScheduledTask × LoopExit
  | st, [] => (st, [], .running)
  | st, .tick h n :: rest =>
    let r := check_inactive_conversations_tick cfg st h n
    let rr := check_inactive_conversations_loop cfg r.1 rest
    (rr.1, r.2 ++ rr.2.1, rr.2.2)
  | st, .err :: _ => (st, [], .exitedErr)
  | st, .cancelSignal :: _ => (st, [], .cancelledExit)

/-! ## Inbound message path (main.py lines 68-111, core lines 396-419) -/

/-- handle_group_message (core lines 396-419): unconditionally refresh the
activity record. -/
def handle_group_message (st : CoreState) (g conversation_id unified_msg_origin : String)
    (now : Int) : CoreState :=
  let record : GroupRecord :=
    { timestamp := now, conversation_id := conversation_id
      unified_msg_origin := unified_msg_origin }
  { st with group_records := dictSet st.group_records g record }

/-- on_group_message (main.py lines 68-111): empty group id returns at once;
a message carrying the dispatch marker returns before any mutation; otherwise
the activity record is refreshed and, when the group is in
groups_received_initiative, the consecutive count is zeroed, the count inside
last_initiative_types is zeroed when present, and the marker is discarded. -/
def on_group_message (st : CoreState) (g msg conversation_id unified_msg_origin : String)
    (now : Int) : CoreState :=
  if g = "" then st
  else if containsSysPrompt msg then st
  else
    let st1 := handle_group_message st g conversation_id unified_msg_origin now
    if st1.groups_received_initiative.contains g then
      let types :=
        match dictGet? st1.last_initiative_types g with
        | some info => dictSet st1.last_initiative_types g { info with count := 0 }
        | none => st1.last_initiative_types
      { st1 with
          consecutive_message_count := dictSet st1.consecutive_message_count g 0
          last_initiative_types := types
          groups_received_initiative := setDiscard st1.groups_received_initiative g }
    else st1

/-- States reachable from the freshly constructed core by the in-memory
operations: dispatcher invocations, inbound messages (marker-carrying ones
included) and scanner ticks. -/
inductive Reachable (cfg : Config) : CoreState → Prop where
  | init : Reachable cfg initialState
  | dispatch (st : CoreState) (g c u : String) (hour : Nat) (now : Int) (o : Option Bool) :
      Reachable cfg st → Reachable cfg (send_initiative_message cfg st g c u hour now o).1
  | message (st : CoreState) (g msg c u : String) (now : Int) :
      Reachable cfg st → Reachable cfg (on_group_message st g msg c u now)
  | tick (st : CoreState) (hour : Nat) (now : Int) :
      Reachable cfg st → Reachable cfg (check_inactive_conversations_tick cfg st hour now).1

/-! ## Persistence layer (utils/data_loader.py lines 33-154)

Timestamps live in storage as ISO strings. Python str is modelled as a list
of Unicode code points; datetime.isoformat writes YYYY-MM-DDTHH:MM:SS and
appends .ffffff exactly when microsecond is nonzero, and
datetime.fromisoformat parses that layout back. -/

structure DateTime where
  year : Nat
  month : Nat
  day : Nat
  hour : Nat
  minute : Nat
  second : Nat
  microsecond : Nat
deriving DecidableEq

/-- Code point of a decimal digit. -/
def digitCode (n : Nat) : Nat := 48 + n

/-- Fixed-width decimal rendering, most significant digit first. -/
def padDigits : Nat → Nat → List Nat
  | 0, _ => []
  | w + 1, n => digitCode (n / 10 ^ w) :: padDigits w (n % 10 ^ w)

def isDigitCode (c : Nat) : Bool := 48 ≤ c && c ≤ 57

/-- Parse a digit string into a number; none when a non-digit appears. -/
def parseDigits (cs : List Nat) : Option Nat :=
  if cs.all isDigitCode then
    some (cs.foldl (fun a c => a * 10 + (c - 48)) 0)
  else none

def dashCode : Nat := 45
def colonCode : Nat := 58
def dotCode : Nat := 46
def sepTCode : Nat := 84

/-- datetime.isoformat as invoked by _prepare_records_for_save (line 147). -/
def DateTime.isoformat (t : DateTime) : List Nat :=
  padDigits 4 t.year ++ dashCode :: padDigits 2 t.month ++ dashCode :: padDigits 2 t.day
    ++ sepTCode :: padDigits 2 t.hour ++ colonCode :: padDigits 2 t.minute
    ++ colonCode :: padDigits 2 t.second
    ++ (if t.microsecond = 0 then [] else dotCode :: padDigits 6 t.microsecond)

/-- datetime.fromisoformat on the layout isoformat emits: positional fields
with the separators checked, the fractional part six digits when present. -/
def fromisoformat (s : List Nat) : Option DateTime :=
  match s with
  | y1 :: y2 :: y3 :: y4 :: s1 :: mo1 :: mo2 :: s2 :: d1 :: d2 :: s3 :: h1 :: h2 ::
      s4 :: mi1 :: mi2 :: s5 :: se1 :: se2 :: rest =>
    if s1 = dashCode ∧ s2 = dashCode ∧ s3 = sepTCode ∧ s4 = colonCode ∧ s5 = colonCode then
      match parseDigits [y1, y2, y3, y4], parseDigits [mo1, mo2], parseDigits [d1, d2],
          parseDigits [h1, h2], parseDigits [mi1, mi2], parseDigits [se1, se2] with
      | some y, some mo, some d, some h, some mi, some se =>
        match rest with
        | [] => some ⟨y, mo, d, h, mi, se, 0⟩
        | p :: us =>
          if p = dotCode ∧ us.length = 6 then
            match parseDigits us with
            | some u => some ⟨y, mo, d, h, mi, se, u⟩
            | none => none
          else none
      | _, _, _, _, _, _ => none
    else none
  | _ => none

/-- A datetime Python itself can hold: these bounds are what the MINYEAR,
MAXYEAR and field range checks of the datetime constructor enforce. -/
def DateTime.Valid (t : DateTime) : Prop :=
  1 ≤ t.year ∧ t.year ≤ 9999 ∧ 1 ≤ t.month ∧ t.month ≤ 12 ∧ 1 ≤ t.day ∧ t.day ≤ 31
    ∧ t.hour ≤ 23 ∧ t.minute ≤ 59 ∧ t.second ≤ 59 ∧ t.microsecond ≤ 999999

instance (t : DateTime) : Decidable t.Valid := by
  unfold DateTime.Valid; infer_instance

/-- In-memory record as the persistence layer sees it: a broken-down
datetime plus the two opaque reference strings. -/
structure TsRecord where
  timestamp : DateTime
  conversation_id : String
  unified_msg_origin : String
deriving DecidableEq

/-- In-memory last_initiative_types entry for persistence. -/
structure TypeRecordP where
  count : Nat
  time_period : String
  timestamp : DateTime
deriving DecidableEq

/-- Serialized forms: the timestamp replaced by its ISO string. -/
structure SavedTsRecord where
  timestamp : List Nat
  conversation_id : String
  unified_msg_origin : String
deriving DecidableEq

structure SavedTypeRecordP where
  count : Nat
  time_period : String
  timestamp : List Nat
deriving DecidableEq

/-- The in-memory snapshot handed to save_data_to_storage by get_data
(core lines 100-112). -/
structure Snapshot where
  group_records : List (String × TsRecord)
  last_initiative_messages : List (String × TsRecord)
  groups_received_initiative : List String
  consecutive_message_count : List (String × Nat)
  last_initiative_types : List (String × TypeRecordP)
deriving DecidableEq

/-- The on-disk JSON shape written by save_data_to_storage (lines 104-118). -/
structure SavedSnapshot where
  group_records : List (String × SavedTsRecord)
  last_initiative_messages : List (String × SavedTsRecord)
  groups_received_initiative : List String
  consecutive_message_count : List (String × Nat)
  last_initiative_types : List (String × SavedTypeRecordP)
deriving DecidableEq

/-- _prepare_records_for_save on one activity-style record (lines 132-154):
the datetime value becomes its ISO string, other values are copied. -/
def prepareTsRecord (r : TsRecord) : SavedTsRecord :=
  { timestamp := r.timestamp.isoformat
    conversation_id := r.conversation_id
    unified_msg_origin := r.unified_msg_origin }

def prepareTypeRecord (r : TypeRecordP) : SavedTypeRecordP :=
  { count := r.count, time_period := r.time_period
    timestamp := r.timestamp.isoformat }

/-- save_data_to_storage (lines 99-130): the three timestamped families go
through _prepare_records_for_save, the set becomes a list, the counts are
copied as they are. -/
def save_data_to_storage (s : Snapshot) : SavedSnapshot :=
  { group_records := s.group_records.map (fun p => (p.1, prepareTsRecord p.2))
    last_initiative_messages :=
      s.last_initiative_messages.map (fun p => (p.1, prepareTsRecord p.2))
    groups_received_initiative := s.groups_received_initiative
    consecutive_message_count := s.consecutive_message_count
    last_initiative_types :=
      s.last_initiative_types.map (fun p => (p.1, prepareTypeRecord p.2)) }

/-- Timestamp recovery on load (lines 42-78): fromisoformat, falling back to
the current time when parsing fails. -/
def loadTsRecord (fallbackNow : DateTime) (r : SavedTsRecord) : TsRecord :=
  { timestamp := (fromisoformat r.timestamp).getD fallbackNow
    conversation_id := r.conversation_id
    unified_msg_origin := r.unified_msg_origin }

def loadTypeRecord (fallbackNow : DateTime) (r : SavedTypeRecordP) : TypeRecordP :=
  { count := r.count, time_period := r.time_period
    timestamp := (fromisoformat r.timestamp).getD fallbackNow }

/-- load_data_from_storage (lines 33-97) on an existing stored file: convert
the timestamp of every record of the three timestamped families, rebuild the
set from the stored list, and hand everything to set_data. -/
def load_data_from_storage (fallbackNow : DateTime) (d : SavedSnapshot) : Snapshot :=
  { group_records := d.group_records.map (fun p => (p.1, loadTsRecord fallbackNow p.2))
    last_initiative_messages :=
      d.last_initiative_messages.map (fun p => (p.1, loadTsRecord fallbackNow p.2))
    groups_received_initiative := d.groups_received_initiative
    consecutive_message_count := d.consecutive_message_count
    last_initiative_types :=
      d.last_initiative_types.map (fun p => (p.1, loadTypeRecord fallbackNow p.2)) }

/-- Every timestamp of the snapshot is a datetime Python could have built. -/
def Snapshot.Valid (s : Snapshot) : Prop :=
  (∀ p ∈ s.group_records, p.2.timestamp.Valid)
    ∧ (∀ p ∈ s.last_initiative_messages, p.2.timestamp.Valid)
    ∧ (∀ p ∈ s.last_initiative_types, p.2.timestamp.Valid)

instance (s : Snapshot) : Decidable s.Valid := by
  unfold Snapshot.Valid
  infer_instance

/-! ## Concrete instances used to evaluate the model -/

/-- The default configuration values of the constructor (lines 39-54). -/
def cfgA : Config :=
  { inactive_time_seconds := 7200, max_response_delay_seconds := 3600
    time_limit_enabled := false, activity_start_hour := 8, activity_end_hour := 23
    max_consecutive_messages := 3, whitelist_enabled := false, whitelist_groups := [] }

/-- A configuration whose response-delay window is not a whole number of
minutes. -/
def cfgNarrow : Config :=
  { inactive_time_seconds := 60, max_response_delay_seconds := 90
    time_limit_enabled := false, activity_start_hour := 8, activity_end_hour := 23
    max_consecutive_messages := 3, whitelist_enabled := false, whitelist_groups := [] }

def recA : GroupRecord :=
  { timestamp := 0, conversation_id := "convA", unified_msg_origin := "umoA" }

/-- A state holding one monitored group. -/
def stRec : CoreState := { initialState with group_records := [("g1", recA)] }

/-- The state after one successful dispatch from the fresh state. -/
def stOnce : CoreState :=
  (send_initiative_message cfgA initialState "g1" "c1" "u1" 10 100 (some true)).1

/-- A state one successful dispatch away from the terminal tier. -/
def stTwo : CoreState :=
  { initialState with
      consecutive_message_count := [("g1", 2)]
      groups_received_initiative := ["g1"]
      last_initiative_types := [("g1", { count := 2, time_period := "上午", timestamp := 50 })] }

/-- A state whose group sits at the terminal tier with a stale record. -/
def stMax : CoreState :=
  { initialState with
      consecutive_message_count := [("g1", 3)]
      groups_received_initiative := ["g1"]
      group_records := [("g1", recA)] }

def dtA : DateTime :=
  { year := 2024, month := 5, day := 17, hour := 13, minute := 45, second := 30
    microsecond := 123456 }

def dtB : DateTime :=
  { year := 2023, month := 12, day := 31, hour := 23, minute := 59, second := 59
    microsecond := 0 }

def dtNow : DateTime :=
  { year := 2025, month := 1, day := 1, hour := 0, minute := 0, second := 0
    microsecond := 0 }

def tsRecA : TsRecord :=
  { timestamp := dtA, conversation_id := "c1", unified_msg_origin := "u1" }

def tsRecB : TsRecord :=
  { timestamp := dtB, conversation_id := "c1", unified_msg_origin := "u1" }

def typeRecA : TypeRecordP :=
  { count := 2, time_period := "下午", timestamp := dtA }

/-- A populated in-memory snapshot. -/
def snapA : Snapshot :=
  { group_records := [("g1", tsRecA)]
    last_initiative_messages := [("g1", tsRecB)]
    groups_received_initiative := ["g1"]
    consecutive_message_count := [("g1", 2)]
    last_initiative_types := [("g1", typeRecA)] }

/-! ## Dictionary and set lemmas -/

theorem dictGet?_erase_ne {α : Type} (m : List (String × α)) (k key : String)
    (h : key ≠ k) : dictGet? (dictErase m k) key = dictGet? m key := by
  induction m with
  | nil => rfl
  | cons p rest ih =>
    obtain ⟨k0, v0⟩ := p
    by_cases hk : k0 = k
    · subst hk
      have hne : ¬ k0 = key := fun hc => h (hc ▸ rfl)
      simp only [dictErase, List.filter_cons, beq_self_eq_true, Bool.not_true,
        Bool.false_eq_true, if_false, dictGet?, hne, if_false]
      exact ih
    · have hb : (k0 == k) = false := beq_eq_false_iff_ne.mpr hk
      simp only [dictErase, List.filter_cons, hb, Bool.not_false, if_true, dictGet?]
      by_cases hk0 : k0 = key
      · simp [hk0]
      · simp only [hk0, if_false]
        exact ih

theorem dictGet?_set_self {α : Type} (m : List (String × α)) (k : String) (v : α) :
    dictGet? (dictSet m k v) k = some v := by
  simp [dictSet, dictGet?]

theorem dictGet?_set_ne {α : Type} (m : List (String × α)) (k key : String) (v : α)
    (h : key ≠ k) : dictGet? (dictSet m k v) key = dictGet? m key := by
  have hne : ¬ k = key := fun hc => h (hc ▸ rfl)
  simp only [dictSet, dictGet?, hne, if_false]
  exact dictGet?_erase_ne m k key h

theorem contains_setAdd_self (s : List String) (g : String) :
    (setAdd s g).contains g = true := by
  unfold setAdd
  split
  · next h => exact h
  · simp

theorem contains_setAdd_of (s : List String) (g x : String)
    (h : s.contains x = true) : (setAdd s g).contains x = true := by
  unfold setAdd
  split
  · exact h
  · simp only [List.contains_cons, h, Bool.or_true]

theorem contains_setDiscard_ne (s : List String) (g x : String) (h : x ≠ g) :
    (setDiscard s g).contains x = s.contains x := by
  induction s with
  | nil => rfl
  | cons a rest ih =>
    simp only [setDiscard, List.filter_cons] at ih ⊢
    by_cases ha : a = g
    · have hx : (x == a) = false := beq_eq_false_iff_ne.mpr (ha ▸ h)
      have hag : (a == g) = true := beq_iff_eq.mpr ha
      simp only [hag, Bool.not_true, Bool.false_eq_true, if_false, List.contains_cons,
        hx, Bool.false_or]
      exact ih
    · have hag : (a == g) = false := beq_eq_false_iff_ne.mpr ha
      simp only [hag, Bool.not_false, if_true, List.contains_cons]
      rw [ih]

theorem dictGet?_filter_of_keep {α : Type} (m : List (String × α))
    (q : String × α → Bool) (key : String) (h : ∀ v, q (key, v) = true) :
    dictGet? (m.filter q) key = dictGet? m key := by
  induction m with
  | nil => rfl
  | cons p rest ih =>
    obtain ⟨k0, v0⟩ := p
    by_cases hk : k0 = key
    · subst hk
      simp only [List.filter_cons, h v0, if_true, dictGet?, if_pos rfl]
    · by_cases hq : q (k0, v0) = true
      · simp only [List.filter_cons, hq, if_true, dictGet?, hk, if_false]
        exact ih
      · have hq2 : q (k0, v0) = false := by
          cases hqv : q (k0, v0)
          · rfl
          · exact absurd hqv hq
        simp only [List.filter_cons, hq2, Bool.false_eq_true, if_false, dictGet?,
          hk, if_false]
        exact ih

/-! ## Scanner tick lemmas -/

theorem tick_counts_eq (cfg : Config) (st : CoreState) (hour : Nat) (now : Int) :
    (check_inactive_conversations_tick cfg st hour now).1.consecutive_message_count
      = st.consecutive_message_count := by
  unfold check_inactive_conversations_tick
  split <;> rfl

theorem tick_received_eq (cfg : Config) (st : CoreState) (hour : Nat) (now : Int) :
    (check_inactive_conversations_tick cfg st hour now).1.groups_received_initiative
      = st.groups_received_initiative := by
  unfold check_inactive_conversations_tick
  split <;> rfl

theorem scan_eligible_false_of_max (cfg : Config) (st : CoreState) (now : Int)
    (g : String) (r : GroupRecord)
    (hmax : cfg.max_consecutive_messages
      ≤ (dictGet? st.consecutive_message_count g).getD 0) :
    scan_eligible cfg st now g r = false := by
  unfold scan_eligible
  have hlt : ((dictGet? st.consecutive_message_count g).getD 0
      < cfg.max_consecutive_messages : Bool) = false := by
    simp only [decide_eq_false_iff_not, not_lt]
    exact hmax
  simp [hlt]

theorem tick_records_get_of_max (cfg : Config) (st : CoreState) (hour : Nat) (now : Int)
    (g : String)
    (hmax : cfg.max_consecutive_messages
      ≤ (dictGet? st.consecutive_message_count g).getD 0) :
    dictGet? (check_inactive_conversations_tick cfg st hour now).1.group_records g
      = dictGet? st.group_records g := by
  unfold check_inactive_conversations_tick
  split
  · rfl
  · exact dictGet?_filter_of_keep _ _ _ (fun r => by
      simp [scan_eligible_false_of_max cfg st now g r hmax])

theorem tick_no_task_of_max (cfg : Config) (st : CoreState) (hour : Nat) (now : Int)
    (g : String)
    (hmax : cfg.max_consecutive_messages
      ≤ (dictGet? st.consecutive_message_count g).getD 0) :
    ∀ t ∈ (check_inactive_conversations_tick cfg st hour now).2, t.group_id ≠ g := by
  unfold check_inactive_conversations_tick
  split
  · intro t ht
    simp at ht
  · intro t ht
    obtain ⟨⟨k, r⟩, _, hf⟩ := List.mem_filterMap.mp ht
    by_cases hk : k = g
    · subst hk
      rw [scan_eligible_false_of_max cfg st now k r hmax] at hf
      simp at hf
    · have : t = mkScanTask cfg now k r := by
        by_cases he : scan_eligible cfg st now k r = true
        · exact Eq.symm (by simpa [he] using hf)
        · simp [he] at hf
      rw [this]
      exact hk

theorem runTicks_of_max (cfg : Config) (st : CoreState) (g : String)
    (ticks : List (Nat × Int))
    (hmax : cfg.max_consecutive_messages
      ≤ (dictGet? st.consecutive_message_count g).getD 0) :
    (∀ t ∈ (runTicks cfg st ticks).2, t.group_id ≠ g)
      ∧ dictGet? (runTicks cfg st ticks).1.group_records g
          = dictGet? st.group_records g
      ∧ (runTicks cfg st ticks).1.consecutive_message_count
          = st.consecutive_message_count := by
  induction ticks generalizing st with
  | nil => exact ⟨fun t ht => absurd ht (by simp [runTicks]), rfl, rfl⟩
  | cons hd rest ih =>
    obtain ⟨h0, n0⟩ := hd
    have hcounts := tick_counts_eq cfg st h0 n0
    have hmax1 : cfg.max_consecutive_messages
        ≤ (dictGet? (check_inactive_conversations_tick cfg st h0 n0).1.consecutive_message_count g).getD 0 := by
      rw [hcounts]; exact hmax
    obtain ⟨ihtask, ihrec, ihcnt⟩ := ih (check_inactive_conversations_tick cfg st h0 n0).1 hmax1
    refine ⟨?_, ?_, ?_⟩
    · intro t ht
      simp only [runTicks, List.mem_append] at ht
      rcases ht with ht | ht
      · exact tick_no_task_of_max cfg st h0 n0 g hmax t ht
      · exact ihtask t ht
    · show dictGet? (runTicks cfg _ rest).1.group_records g = _
      rw [ihrec]
      exact tick_records_get_of_max cfg st h0 n0 g hmax
    · show (runTicks cfg _ rest).1.consecutive_message_count = _
      rw [ihcnt, hcounts]

/-! ## Branch shape lemmas for the two mutating entry points -/

theorem send_initiative_message_cases (cfg : Config) (st : CoreState)
    (g c u : String) (hour : Nat) (now : Int) (o : Option Bool) :
    (send_initiative_message cfg st g c u hour now o).1 = st
    ∨ ((send_initiative_message cfg st g c u hour now o).1.consecutive_message_count
        = dictSet st.consecutive_message_count g (dispatch_current_count st g + 1)
      ∧ (send_initiative_message cfg st g c u hour now o).1.groups_received_initiative
        = setAdd st.groups_received_initiative g) := by
  simp only [send_initiative_message]
  split
  · exact Or.inl rfl
  · split
    · exact Or.inl rfl
    · cases o with
      | none => exact Or.inl rfl
      | some b => exact Or.inr ⟨rfl, rfl⟩

theorem on_group_message_cases (st : CoreState) (g msg c u : String) (now : Int) :
    on_group_message st g msg c u now = st
    ∨ ((on_group_message st g msg c u now).consecutive_message_count
        = st.consecutive_message_count
      ∧ (on_group_message st g msg c u now).groups_received_initiative
        = st.groups_received_initiative)
    ∨ ((on_group_message st g msg c u now).consecutive_message_count
        = dictSet st.consecutive_message_count g 0
      ∧ (on_group_message st g msg c u now).groups_received_initiative
        = setDiscard st.groups_received_initiative g) := by
  simp only [on_group_message, handle_group_message]
  split
  · exact Or.inl rfl
  · split
    · exact Or.inl rfl
    · split
      · exact Or.inr (Or.inr ⟨rfl, rfl⟩)
      · exact Or.inr (Or.inl ⟨rfl, rfl⟩)

/-! ## The counter-membership invariant over reachable states -/

theorem count_pos_mem_received {cfg : Config} {st : CoreState} (h : Reachable cfg st) :
    ∀ g : String, 0 < (dictGet? st.consecutive_message_count g).getD 0 →
      st.groups_received_initiative.contains g = true := by
  induction h with
  | init => intro g hpos; simp [initialState, dictGet?] at hpos
  | dispatch st0 g0 c u hour now o hr ih =>
    intro g hpos
    rcases send_initiative_message_cases cfg st0 g0 c u hour now o with heq | ⟨hc, hs⟩
    · rw [heq] at hpos ⊢
      exact ih g hpos
    · rw [hs]
      by_cases hg : g = g0
      · subst hg
        exact contains_setAdd_self _ _
      · rw [hc, dictGet?_set_ne _ _ _ _ hg] at hpos
        exact contains_setAdd_of _ _ _ (ih g hpos)
  | message st0 g0 msg c u now hr ih =>
    intro g hpos
    rcases on_group_message_cases st0 g0 msg c u now with heq | ⟨hc, hs⟩ | ⟨hc, hs⟩
    · rw [heq] at hpos ⊢
      exact ih g hpos
    · rw [hs]
      rw [hc] at hpos
      exact ih g hpos
    · rw [hs]
      by_cases hg : g = g0
      · subst hg
        rw [hc, dictGet?_set_self] at hpos
        simp at hpos
      · rw [hc, dictGet?_set_ne _ _ _ _ hg] at hpos
        rw [contains_setDiscard_ne _ _ _ hg]
        exact ih g hpos
  | tick st0 hour now hr ih =>
    intro g hpos
    rw [tick_counts_eq] at hpos
    rw [tick_received_eq]
    exact ih g hpos

/-! ## Digit-string round-trip lemmas -/

theorem padDigits_length (w n : Nat) : (padDigits w n).length = w := by
  induction w generalizing n with
  | zero => rfl
  | succ w ih => simp [padDigits, ih]

theorem padDigits_all_digits (w n : Nat) (h : n < 10 ^ w) :
    (padDigits w n).all isDigitCode = true := by
  induction w generalizing n with
  | zero => rfl
  | succ w ih =>
    have hpow : 0 < 10 ^ w := Nat.pos_pow_of_pos w (by omega)
    have hd : n / 10 ^ w < 10 := by
      apply Nat.div_lt_of_lt_mul
      calc n < 10 ^ (w + 1) := h
        _ = 10 ^ w * 10 := by ring
    have hhead : isDigitCode (digitCode (n / 10 ^ w)) = true := by
      revert hd
      generalize n / 10 ^ w = d
      intro hd
      unfold isDigitCode digitCode
      simp only [Bool.and_eq_true, decide_eq_true_eq]
      omega
    simp only [padDigits, List.all_cons, hhead, Bool.true_and]
    exact ih (n % 10 ^ w) (Nat.mod_lt _ hpow)

theorem padDigits_fold (w n a : Nat) (h : n < 10 ^ w) :
    (padDigits w n).foldl (fun acc c => acc * 10 + (c - 48)) a = a * 10 ^ w + n := by
  induction w generalizing n a with
  | zero =>
    have hn : n = 0 := by simpa using h
    simp [padDigits, hn]
  | succ w ih =>
    have hpow : 0 < 10 ^ w := Nat.pos_pow_of_pos w (by omega)
    have hmod : n % 10 ^ w < 10 ^ w := Nat.mod_lt _ hpow
    simp only [padDigits, List.foldl_cons]
    rw [ih (n % 10 ^ w) _ hmod]
    have hdig : digitCode (n / 10 ^ w) - 48 = n / 10 ^ w := by
      generalize n / 10 ^ w = d
      unfold digitCode
      omega
    rw [hdig]
    have hdm : n / 10 ^ w * 10 ^ w + n % 10 ^ w = n := Nat.div_add_mod' n (10 ^ w)
    calc (a * 10 + n / 10 ^ w) * 10 ^ w + n % 10 ^ w
        = a * (10 ^ w * 10) + (n / 10 ^ w * 10 ^ w + n % 10 ^ w) := by ring
      _ = a * 10 ^ (w + 1) + n := by rw [hdm]; ring

theorem parseDigits_padDigits (w n : Nat) (h : n < 10 ^ w) :
    parseDigits (padDigits w n) = some n := by
  unfold parseDigits
  rw [padDigits_all_digits w n h]
  simp only [if_true]
  rw [padDigits_fold w n 0 h]
  simp

theorem padDigits_two (n : Nat) :
    padDigits 2 n = [digitCode (n / 10), digitCode (n % 10)] := by
  have h1 : (10 : Nat) ^ 1 = 10 := by norm_num
  have h0 : (10 : Nat) ^ 0 = 1 := by norm_num
  simp [padDigits, h1, h0]

theorem padDigits_four (n : Nat) :
    padDigits 4 n = [digitCode (n / 1000), digitCode (n % 1000 / 100),
      digitCode (n % 1000 % 100 / 10), digitCode (n % 1000 % 100 % 10)] := by
  have h3 : (10 : Nat) ^ 3 = 1000 := by norm_num
  have h2 : (10 : Nat) ^ 2 = 100 := by norm_num
  have h1 : (10 : Nat) ^ 1 = 10 := by norm_num
  have h0 : (10 : Nat) ^ 0 = 1 := by norm_num
  simp [padDigits, h3, h2, h1, h0]

theorem padDigits_six (n : Nat) :
    padDigits 6 n = [digitCode (n / 100000), digitCode (n % 100000 / 10000),
      digitCode (n % 100000 % 10000 / 1000), digitCode (n % 100000 % 10000 % 1000 / 100),
      digitCode (n % 100000 % 10000 % 1000 % 100 / 10),
      digitCode (n % 100000 % 10000 % 1000 % 100 % 10)] := by
  have h5 : (10 : Nat) ^ 5 = 100000 := by norm_num
  have h4 : (10 : Nat) ^ 4 = 10000 := by norm_num
  have h3 : (10 : Nat) ^ 3 = 1000 := by norm_num
  have h2 : (10 : Nat) ^ 2 = 100 := by norm_num
  have h1 : (10 : Nat) ^ 1 = 10 := by norm_num
  have h0 : (10 : Nat) ^ 0 = 1 := by norm_num
  simp [padDigits, h5, h4, h3, h2, h1, h0]

theorem fromisoformat_isoformat (t : DateTime) (h : t.Valid) :
    fromisoformat t.isoformat = some t := by
  obtain ⟨y, mo, d, hh, mi, se, us⟩ := t
  obtain ⟨hy1, hy2, hm1, hm2, hd1, hd2, hhh, hmi, hse, hus⟩ := h
  have py : parseDigits (padDigits 4 y) = some y :=
    parseDigits_padDigits 4 y (by norm_num at *; omega)
  have pmo : parseDigits (padDigits 2 mo) = some mo :=
    parseDigits_padDigits 2 mo (by norm_num at *; omega)
  have pd : parseDigits (padDigits 2 d) = some d :=
    parseDigits_padDigits 2 d (by norm_num at *; omega)
  have ph : parseDigits (padDigits 2 hh) = some hh :=
    parseDigits_padDigits 2 hh (by norm_num at *; omega)
  have pmi : parseDigits (padDigits 2 mi) = some mi :=
    parseDigits_padDigits 2 mi (by norm_num at *; omega)
  have pse : parseDigits (padDigits 2 se) = some se :=
    parseDigits_padDigits 2 se (by norm_num at *; omega)
  have pus : parseDigits (padDigits 6 us) = some us :=
    parseDigits_padDigits 6 us (by norm_num at *; omega)
  rw [padDigits_four] at py
  rw [padDigits_two] at pmo pd ph pmi pse
  rw [padDigits_six] at pus
  unfold DateTime.isoformat
  dsimp only
  by_cases hus0 : us = 0
  · rw [if_pos hus0]
    rw [padDigits_four, padDigits_two mo, padDigits_two d, padDigits_two hh,
      padDigits_two mi, padDigits_two se]
    simp only [List.cons_append, List.nil_append, List.append_nil]
    simp only [fromisoformat, and_self, eq_self_iff_true, if_true, true_and]
    rw [py, pmo, pd, ph, pmi, pse]
    simp [hus0]
  · rw [if_neg hus0]
    rw [padDigits_four, padDigits_two mo, padDigits_two d, padDigits_two hh,
      padDigits_two mi, padDigits_two se, padDigits_six]
    simp only [List.cons_append, List.nil_append, List.append_nil]
    simp only [fromisoformat, and_self, eq_self_iff_true, if_true, true_and]
    rw [py, pmo, pd, ph, pmi, pse]
    simp only [List.length_cons, List.length_nil]
    norm_num at pus ⊢
    rw [pus]

/-! ## Record and snapshot round-trip lemmas -/

theorem load_prepare_ts (nowF : DateTime) (r : TsRecord) (h : r.timestamp.Valid) :
    loadTsRecord nowF (prepareTsRecord r) = r := by
  simp [loadTsRecord, prepareTsRecord, fromisoformat_isoformat _ h]

theorem load_prepare_type (nowF : DateTime) (r : TypeRecordP) (h : r.timestamp.Valid) :
    loadTypeRecord nowF (prepareTypeRecord r) = r := by
  simp [loadTypeRecord, prepareTypeRecord, fromisoformat_isoformat _ h]

theorem map_roundtrip_ts (nowF : DateTime) (l : List (String × TsRecord))
    (h : ∀ p ∈ l, p.2.timestamp.Valid) :
    (l.map (fun p => (p.1, prepareTsRecord p.2))).map
        (fun p => (p.1, loadTsRecord nowF p.2)) = l := by
  induction l with
  | nil => rfl
  | cons p rest ih =>
    simp only [List.map_cons, List.cons.injEq]
    refine ⟨?_, ih (fun q hq => h q (by simp [hq]))⟩
    obtain ⟨k, r⟩ := p
    simp [load_prepare_ts nowF r (h (k, r) (by simp))]

theorem map_roundtrip_type (nowF : DateTime) (l : List (String × TypeRecordP))
    (h : ∀ p ∈ l, p.2.timestamp.Valid) :
    (l.map (fun p => (p.1, prepareTypeRecord p.2))).map
        (fun p => (p.1, loadTypeRecord nowF p.2)) = l := by
  induction l with
  | nil => rfl
  | cons p rest ih =>
    simp only [List.map_cons, List.cons.injEq]
    refine ⟨?_, ih (fun q hq => h q (by simp [hq]))⟩
    obtain ⟨k, r⟩ := p
    simp [load_prepare_type nowF r (h (k, r) (by simp))]

theorem snapshot_roundtrip (s : Snapshot) (nowF : DateTime) (h : s.Valid) :
    load_data_from_storage nowF (save_data_to_storage s) = s := by
  obtain ⟨h1, h2, h3⟩ := h
  unfold load_data_from_storage save_data_to_storage
  cases s with
  | mk gr lim gri cmc lit =>
    simp only [Snapshot.mk.injEq]
    exact ⟨map_roundtrip_ts nowF gr h1, map_roundtrip_ts nowF lim h2, trivial, trivial,
      map_roundtrip_type nowF lit h3⟩

/-! ## Claim theorems -/

/-- C1: when a dispatch invocation reaches the generation/send step (whitelist
passed, count guard passed) and the send completes without raising, the
dispatcher commits consecutive_message_count to the pre-invocation count plus
one together with the updated tier metadata and the refreshed
last-initiative-message record; it re-creates the activity record with
timestamp equal to the send-completion time exactly when the new count is
still below max_consecutive_messages, and leaves group_records untouched when
the new count equals max_consecutive_messages. -/
theorem C1_dispatch_success_commit (cfg : Config) (st : CoreState)
    (g c u : String) (hour : Nat) (now : Int)
    (hwl : ¬ (cfg.whitelist_enabled ∧ ¬ cfg.whitelist_groups.contains g))
    (hguard : dispatch_current_count st g + 1 ≤ cfg.max_consecutive_messages) :
    dictGet? (send_initiative_message cfg st g c u hour now (some true)).1.consecutive_message_count g
      = some (dispatch_current_count st g + 1)
    ∧ dictGet? (send_initiative_message cfg st g c u hour now (some true)).1.last_initiative_types g
      = some { count := dispatch_current_count st g + 1
               time_period := timePeriodOfHour hour, timestamp := now }
    ∧ dictGet? (send_initiative_message cfg st g c u hour now (some true)).1.last_initiative_messages g
      = some { timestamp := now, conversation_id := c, unified_msg_origin := u }
    ∧ (dispatch_current_count st g + 1 < cfg.max_consecutive_messages →
        dictGet? (send_initiative_message cfg st g c u hour now (some true)).1.group_records g
          = some { timestamp := now, conversation_id := c, unified_msg_origin := u })
    ∧ (dispatch_current_count st g + 1 = cfg.max_consecutive_messages →
        (send_initiative_message cfg st g c u hour now (some true)).1.group_records
          = st.group_records) := by
  have hng : ¬ (cfg.max_consecutive_messages < dispatch_current_count st g + 1) := by omega
  simp only [send_initiative_message, if_neg hwl, if_neg hng]
  refine ⟨dictGet?_set_self _ _ _, dictGet?_set_self _ _ _, dictGet?_set_self _ _ _, ?_, ?_⟩
  · intro hlt
    simp only [if_pos hlt]
    exact dictGet?_set_self _ _ _
  · intro heq
    simp only [if_neg (by omega : ¬ (dispatch_current_count st g + 1 < cfg.max_consecutive_messages))]

/-- C1 witness: committing the first dispatch from the fresh state under the
default configuration. -/
theorem C1_witness :
    dictGet? (send_initiative_message cfgA initialState "g1" "c1" "u1" 10 100 (some true)).1.consecutive_message_count "g1"
      = some (dispatch_current_count initialState "g1" + 1)
    ∧ dictGet? (send_initiative_message cfgA initialState "g1" "c1" "u1" 10 100 (some true)).1.last_initiative_types "g1"
      = some { count := dispatch_current_count initialState "g1" + 1
               time_period := timePeriodOfHour 10, timestamp := 100 }
    ∧ dictGet? (send_initiative_message cfgA initialState "g1" "c1" "u1" 10 100 (some true)).1.last_initiative_messages "g1"
      = some { timestamp := 100, conversation_id := "c1", unified_msg_origin := "u1" }
    ∧ (dispatch_current_count initialState "g1" + 1 < cfgA.max_consecutive_messages →
        dictGet? (send_initiative_message cfgA initialState "g1" "c1" "u1" 10 100 (some true)).1.group_records "g1"
          = some { timestamp := 100, conversation_id := "c1", unified_msg_origin := "u1" })
    ∧ (dispatch_current_count initialState "g1" + 1 = cfgA.max_consecutive_messages →
        (send_initiative_message cfgA initialState "g1" "c1" "u1" 10 100 (some true)).1.group_records
          = initialState.group_records) :=
  C1_dispatch_success_commit cfgA initialState "g1" "c1" "u1" 10 100
    (by decide) (by decide)

/-- C2: a group whose consecutive_message_count has reached
max_consecutive_messages is never handed to the task scheduler by any
sequence of scanner ticks, its activity record is untouched by every tick,
and the counts map itself is untouched, so only a reset event can change its
status. -/
theorem C2_terminal_group_never_scheduled (cfg : Config) (st : CoreState)
    (g : String) (ticks : List (Nat × Int))
    (hmax : cfg.max_consecutive_messages
      ≤ (dictGet? st.consecutive_message_count g).getD 0) :
    (∀ t ∈ (runTicks cfg st ticks).2, t.group_id ≠ g)
    ∧ dictGet? (runTicks cfg st ticks).1.group_records g = dictGet? st.group_records g
    ∧ (runTicks cfg st ticks).1.consecutive_message_count = st.consecutive_message_count :=
  runTicks_of_max cfg st g ticks hmax

/-- C2 witness: a terminal group under the default configuration across two
ticks that would otherwise both be eligible. -/
theorem C2_witness :
    (∀ t ∈ (runTicks cfgA stMax [(10, 100000), (12, 200000)]).2, t.group_id ≠ "g1")
    ∧ dictGet? (runTicks cfgA stMax [(10, 100000), (12, 200000)]).1.group_records "g1"
      = dictGet? stMax.group_records "g1"
    ∧ (runTicks cfgA stMax [(10, 100000), (12, 200000)]).1.consecutive_message_count
      = stMax.consecutive_message_count :=
  C2_terminal_group_never_scheduled cfgA stMax "g1" [(10, 100000), (12, 200000)] (by decide)

/-- C3 counterexample: a generation failure inside
generate_and_send_message is caught there and returned as False; the
dispatcher ignores that value and still commits the escalation state, so a
failed generation step does mutate consecutive_message_count. -/
theorem C3_counterexample :
    generate_and_send_message true true = false
    ∧ dictGet? (send_initiative_message cfgA initialState "g1" "c1" "u1" 10 100
        (some (generate_and_send_message true true))).1.consecutive_message_count "g1"
      = some 1
    ∧ dictGet? initialState.consecutive_message_count "g1" = none := by
  refine ⟨rfl, ?_, rfl⟩
  decide

/-- C3 amended: only a failure that raises an exception into the dispatcher
leaves every store unchanged; a failure surfaced as a False return commits
exactly the same state as a successful send, because the dispatcher never
reads the returned value. -/
theorem C3_amended_failure_behavior (cfg : Config) (st : CoreState)
    (g c u : String) (hour : Nat) (now : Int) :
    (send_initiative_message cfg st g c u hour now none).1 = st
    ∧ send_initiative_message cfg st g c u hour now (some false)
      = send_initiative_message cfg st g c u hour now (some true) := by
  refine ⟨?_, ?_⟩
  · simp only [send_initiative_message]
    split
    · rfl
    · split
      · rfl
      · rfl
  · simp only [send_initiative_message]

/-- C4 counterexample: with an eligible group present, a transient exception
event makes the loop exit with the error status and process nothing further,
while the very tick it skipped would have scheduled a task — the loop does
not survive and resume. -/
theorem C4_counterexample :
    check_inactive_conversations_loop cfgA stRec [LoopEvent.err, LoopEvent.tick 10 100000]
      = (stRec, [], LoopExit.exitedErr)
    ∧ (check_inactive_conversations_loop cfgA stRec [LoopEvent.tick 10 100000]).2.1.length = 1 := by
  exact ⟨rfl, rfl⟩

/-- C4 amended: the loop processes clean ticks until the first transient
exception; that exception terminates it — every event after it is ignored
and the exit status is the error exit — and the cancellation signal likewise
terminates it immediately. -/
theorem C4_amended_error_terminates_loop (cfg : Config) (st : CoreState)
    (pre post : List LoopEvent) (hpre : ∀ e ∈ pre, isTick e = true) :
    check_inactive_conversations_loop cfg st (pre ++ LoopEvent.err :: post)
      = check_inactive_conversations_loop cfg st (pre ++ [LoopEvent.err])
    ∧ (check_inactive_conversations_loop cfg st (pre ++ LoopEvent.err :: post)).2.2
      = LoopExit.exitedErr
    ∧ check_inactive_conversations_loop cfg st (LoopEvent.cancelSignal :: post)
      = (st, [], LoopExit.cancelledExit) := by
  induction pre generalizing st with
  | nil => exact ⟨rfl, rfl, rfl⟩
  | cons e pre ih =>
    cases e with
    | tick h n =>
      have hrest : ∀ x ∈ pre, isTick x = true := fun x hx => hpre x (by simp [hx])
      obtain ⟨ih1, ih2, _⟩ := ih (check_inactive_conversations_tick cfg st h n).1 hrest
      refine ⟨?_, ?_, rfl⟩
      · simp only [List.cons_append, check_inactive_conversations_loop, List.append_eq]
        rw [ih1]
      · simp only [List.cons_append, check_inactive_conversations_loop, List.append_eq]
        exact ih2
    | err => exact absurd (hpre LoopEvent.err (by simp)) (by simp [isTick])
    | cancelSignal => exact absurd (hpre LoopEvent.cancelSignal (by simp)) (by simp [isTick])

/-- C4 amended witness: one clean tick, then the error, then one more tick
that is never processed. -/
theorem C4_amended_witness :
    check_inactive_conversations_loop cfgA stRec
        ([LoopEvent.tick 9 50] ++ LoopEvent.err :: [LoopEvent.tick 10 60])
      = check_inactive_conversations_loop cfgA stRec ([LoopEvent.tick 9 50] ++ [LoopEvent.err])
    ∧ (check_inactive_conversations_loop cfgA stRec
        ([LoopEvent.tick 9 50] ++ LoopEvent.err :: [LoopEvent.tick 10 60])).2.2
      = LoopExit.exitedErr
    ∧ check_inactive_conversations_loop cfgA stRec
        (LoopEvent.cancelSignal :: [LoopEvent.tick 10 60])
      = (stRec, [], LoopExit.cancelledExit) :=
  C4_amended_error_terminates_loop cfgA stRec [LoopEvent.tick 9 50] [LoopEvent.tick 10 60]
    (by decide)

/-- C5 amended: every group an in-window tick finds eligible is handed to
the scheduler as a task carrying exactly (group id, conversation_ref,
channel_ref) with the delay range passed as min 0 and max the whole-minute
truncation of max_response_delay_seconds; under the modelled scheduler the
admissible delays are therefore the whole minutes from 0 up to
60 * (max_response_delay_seconds / 60) seconds, delay 0 included. -/
theorem C5_amended_task_payload_and_delay (cfg : Config) (st : CoreState)
    (g : String) (r : GroupRecord) (hour : Nat) (now : Int)
    (hwin : ¬ (cfg.time_limit_enabled
      ∧ ¬ (cfg.activity_start_hour ≤ hour ∧ hour < cfg.activity_end_hour)))
    (hmem : (g, r) ∈ st.group_records)
    (helig : scan_eligible cfg st now g r = true) :
    mkScanTask cfg now g r ∈ (check_inactive_conversations_tick cfg st hour now).2
    ∧ (mkScanTask cfg now g r).group_id = g
    ∧ (mkScanTask cfg now g r).conversation_id = r.conversation_id
    ∧ (mkScanTask cfg now g r).unified_msg_origin = r.unified_msg_origin
    ∧ (mkScanTask cfg now g r).min_delay = 0
    ∧ (mkScanTask cfg now g r).max_delay = cfg.max_response_delay_seconds / 60
    ∧ scheduledDelaySeconds (mkScanTask cfg now g r).min_delay = 0
    ∧ (∀ k, k ≤ (mkScanTask cfg now g r).max_delay →
        scheduledDelaySeconds k = 60 * k
        ∧ scheduledDelaySeconds k ≤ 60 * (cfg.max_response_delay_seconds / 60)) := by
  refine ⟨?_, rfl, rfl, rfl, rfl, rfl, rfl, ?_⟩
  · unfold check_inactive_conversations_tick
    rw [if_neg hwin]
    exact List.mem_filterMap.mpr ⟨(g, r), hmem, by simp [helig]⟩
  · intro k hk
    refine ⟨rfl, ?_⟩
    unfold scheduledDelaySeconds
    have hk2 : k ≤ cfg.max_response_delay_seconds / 60 := hk
    omega

/-- C5 amended witness: the eligible group of stRec under the default
configuration. -/
theorem C5_amended_witness :
    mkScanTask cfgA 100000 "g1" recA
      ∈ (check_inactive_conversations_tick cfgA stRec 10 100000).2
    ∧ (mkScanTask cfgA 100000 "g1" recA).group_id = "g1"
    ∧ (mkScanTask cfgA 100000 "g1" recA).conversation_id = recA.conversation_id
    ∧ (mkScanTask cfgA 100000 "g1" recA).unified_msg_origin = recA.unified_msg_origin
    ∧ (mkScanTask cfgA 100000 "g1" recA).min_delay = 0
    ∧ (mkScanTask cfgA 100000 "g1" recA).max_delay = cfgA.max_response_delay_seconds / 60
    ∧ scheduledDelaySeconds (mkScanTask cfgA 100000 "g1" recA).min_delay = 0
    ∧ (∀ k, k ≤ (mkScanTask cfgA 100000 "g1" recA).max_delay →
        scheduledDelaySeconds k = 60 * k
        ∧ scheduledDelaySeconds k ≤ 60 * (cfgA.max_response_delay_seconds / 60)) :=
  C5_amended_task_payload_and_delay cfgA stRec "g1" recA 10 100000
    (by decide) (by decide) (by decide)

/-- C5 counterexample: with max_response_delay_seconds = 90 the scanner
passes max_delay 1 (whole minutes) to the scheduler, so no admissible sample
can produce a delay beyond 60 seconds; the claimed sampling interval
[0, max_response_delay_seconds] = [0, 90] is unreachable above 60. -/
theorem C5_counterexample :
    (check_inactive_conversations_tick cfgNarrow stRec 10 100000).2
      = [mkScanTask cfgNarrow 100000 "g1" recA]
    ∧ (mkScanTask cfgNarrow 100000 "g1" recA).max_delay = 1
    ∧ ((List.range ((mkScanTask cfgNarrow 100000 "g1" recA).max_delay + 1)).all
        (fun k => scheduledDelaySeconds k ≤ 60)) = true
    ∧ 60 < cfgNarrow.max_response_delay_seconds := by
  refine ⟨rfl, rfl, by decide, by decide⟩

/-- C6: in any reachable state, a genuine inbound group message (nonempty
group id, no dispatch marker) leaves the consecutive count of that group at
zero, whatever its prior value: either the group carries the
received-initiative mark and the handler zeroes the counter, or the
reachability invariant forces the counter to be zero already. -/
theorem C6_genuine_message_zeroes_count {cfg : Config} {st : CoreState}
    (h : Reachable cfg st) (g msg c u : String) (now : Int)
    (hg : g ≠ "") (hmsg : containsSysPrompt msg = false) :
    (dictGet? (on_group_message st g msg c u now).consecutive_message_count g).getD 0
      = 0 := by
  unfold on_group_message
  rw [if_neg hg, if_neg (by simp [hmsg])]
  simp only [handle_group_message]
  split
  · rw [dictGet?_set_self]
    rfl
  · next hc =>
    have hc2 : ¬ st.groups_received_initiative.contains g = true := by
      simpa using hc
    have h0 : (dictGet? st.consecutive_message_count g).getD 0 = 0 := by
      by_contra hne
      exact hc2 (count_pos_mem_received h g (by omega))
    simpa using h0

/-- C6 witness: the state after one successful dispatch has count 1 for g1,
and a genuine message resets it to 0. -/
theorem C6_witness :
    (dictGet? (on_group_message stOnce "g1" "hello" "c2" "u2" 200).consecutive_message_count "g1").getD 0
      = 0 :=
  C6_genuine_message_zeroes_count
    (Reachable.dispatch initialState "g1" "c1" "u1" 10 100 (some true) Reachable.init)
    "g1" "hello" "c2" "u2" 200 (by decide) (by decide)

/-- C7: an inbound message carrying the dispatch marker makes the handler
return before any mutation: the whole state, activity records, counters and
marker set included, is returned unchanged. -/
theorem C7_marker_message_skips_all_mutation (st : CoreState)
    (g msg c u : String) (now : Int) (hmsg : containsSysPrompt msg = true) :
    on_group_message st g msg c u now = st := by
  unfold on_group_message
  by_cases hg : g = ""
  · rw [if_pos hg]
  · rw [if_neg hg, if_pos hmsg]

/-- C7 witness: a marker-tagged message leaves the dispatched state
untouched. -/
theorem C7_witness :
    on_group_message stOnce "g1" "abc [SYS_PROMPT] xyz" "c2" "u2" 300 = stOnce :=
  C7_marker_message_skips_all_mutation stOnce "g1" "abc [SYS_PROMPT] xyz" "c2" "u2" 300
    (by decide)

/-- C8: saving the in-memory snapshot and loading it back reproduces every
mapping exactly, timestamps included, for any snapshot whose timestamps are
datetimes Python can represent — the ISO serialization keeps microsecond
granularity. -/
theorem C8_snapshot_roundtrip (s : Snapshot) (nowF : DateTime) (h : s.Valid) :
    load_data_from_storage nowF (save_data_to_storage s) = s :=
  snapshot_roundtrip s nowF h

/-- C8 witness: a populated snapshot with a microsecond-carrying timestamp
and a zero-microsecond timestamp round-trips exactly. -/
theorem C8_witness :
    load_data_from_storage dtNow (save_data_to_storage snapA) = snapA :=
  C8_snapshot_roundtrip snapA dtNow (by decide)

/-- C9 counterexample: after a successful first dispatch (count 1 of max 3),
re-running the dispatcher with the same input reaches the send step again
and commits count 2 — the count guard does not reject the repeat, so the
rerun is not a no-op. -/
theorem C9_counterexample :
    (send_initiative_message cfgA stOnce "g1" "c1" "u1" 10 100 (some true)).2 = true
    ∧ dictGet? (send_initiative_message cfgA stOnce "g1" "c1" "u1" 10 100 (some true)).1.consecutive_message_count "g1"
      = some 2
    ∧ dictGet? stOnce.consecutive_message_count "g1" = some 1 := by
  refine ⟨by decide, by decide, by decide⟩

/-- C9 amended: re-running the same dispatch input after a success is a
no-op (no state change, send step not reached) exactly when that success
carried the group to max_consecutive_messages: the committed tier metadata
then makes the rerun count guard fire. -/
theorem C9_amended_rerun_noop_only_at_max (cfg : Config) (st : CoreState)
    (g c u : String) (hour : Nat) (now : Int)
    (hwl : ¬ (cfg.whitelist_enabled ∧ ¬ cfg.whitelist_groups.contains g))
    (hmax : dispatch_current_count st g + 1 = cfg.max_consecutive_messages) :
    ∀ (c2 u2 : String) (hour2 : Nat) (now2 : Int) (o : Option Bool),
      send_initiative_message cfg
          (send_initiative_message cfg st g c u hour now (some true)).1 g c2 u2 hour2 now2 o
        = ((send_initiative_message cfg st g c u hour now (some true)).1, false) := by
  intro c2 u2 hour2 now2 o
  have hng : ¬ (cfg.max_consecutive_messages < dispatch_current_count st g + 1) := by omega
  have hcommit : dictGet? (send_initiative_message cfg st g c u hour now (some true)).1.last_initiative_types g
      = some { count := dispatch_current_count st g + 1
               time_period := timePeriodOfHour hour, timestamp := now } := by
    simp only [send_initiative_message, if_neg hwl, if_neg hng]
    exact dictGet?_set_self _ _ _
  generalize hgen : (send_initiative_message cfg st g c u hour now (some true)).1 = st1 at hcommit ⊢
  have hcount : dispatch_current_count st1 g = cfg.max_consecutive_messages := by
    unfold dispatch_current_count
    rw [hcommit]
    exact hmax
  have hng2 : cfg.max_consecutive_messages < dispatch_current_count st1 g + 1 := by omega
  simp only [send_initiative_message, if_neg hwl, if_pos hng2]

/-- C9 amended witness: from a state one step below the maximum, a
successful dispatch reaches the terminal tier and the rerun is rejected
without mutation. -/
theorem C9_amended_witness :
    send_initiative_message cfgA
        (send_initiative_message cfgA stTwo "g1" "c1" "u1" 10 100 (some true)).1
        "g1" "c9" "u9" 11 200 (some true)
      = ((send_initiative_message cfgA stTwo "g1" "c1" "u1" 10 100 (some true)).1, false) :=
  C9_amended_rerun_noop_only_at_max cfgA stTwo "g1" "c1" "u1" 10 100
    (by decide) (by decide) "c9" "u9" 11 200 (some true)

/-- C10: in every state reachable by the in-memory operations, a group with
a positive consecutive count is a member of groups_received_initiative — the
very set the message handler gates the counter reset on. -/
theorem C10_positive_count_in_received_set {cfg : Config} {st : CoreState}
    (h : Reachable cfg st) (g : String)
    (hpos : 0 < (dictGet? st.consecutive_message_count g).getD 0) :
    st.groups_received_initiative.contains g = true :=
  count_pos_mem_received h g hpos

/-- C10 witness: after one successful dispatch the count of g1 is positive
and g1 is in the received-initiative set. -/
theorem C10_witness :
    stOnce.groups_received_initiative.contains "g1" = true :=
  C10_positive_count_in_received_set
    (Reachable.dispatch initialState "g1" "c1" "u1" 10 100 (some true) Reachable.init)
    "g1" (by decide)
